import Mathlib

/-!
Shallow embedding of the circuit breaker in `src/main.rs`.

The Rust `CircuitBreaker` holds a three-state machine (Closed / Open /
HalfOpen) together with counters and timestamps.  Its only public operation,
`call`, dispatches on the current state:

* in `Open`, `handle_open_state` never runs the operation; it either
  transitions to `HalfOpen` (returning `Ok(None)`) or returns
  `Err(TimeoutError)`;
* in `Closed` and `HalfOpen`, the operation is spawned on a worker thread and
  the breaker waits up to `timeout` milliseconds; the three distinguishable
  outcomes (success value, failure value, no result before the deadline) are
  modelled here by the `Outcome` type, which is what `rx.recv_timeout` lets
  the handler observe.

Machine integers are modelled as `Nat` with explicit reduction modulo the
word size exactly where the Rust code performs arithmetic or a cast:
`failure_count` is a `u32` (its `+= 1` reduces mod `2^32`),
`open_success_count` is a `u64` (its `+= 1` reduces mod `2^64`), and the
current time is cast `as u64` before being stored into `last_failure_time`
(reduction mod `2^64`).  The wall-clock reading `SystemTime::now()` is
passed in as an explicit `now : Nat` argument.
-/

def U32LIMIT : Nat := 2 ^ 32

def U64LIMIT : Nat := 2 ^ 64

inductive State where
  | Open : State
  | Closed : State
  | HalfOpen : State
deriving DecidableEq, Repr

inductive MyError (E : Type) where
  | FunctionError : E → MyError E
  | TimeoutError : MyError E
deriving DecidableEq, Repr

/-- The fields of the Rust `CircuitBreaker` struct, in declaration order.
`failure_threshold` and `failure_count` are `u32`; `last_failure_time`,
`timeout`, `recovery_time`, `open_success_count`, `open_threshold_count`
are `u64`. -/
structure CircuitBreaker where
  state : State
  failure_threshold : Nat
  failure_count : Nat
  last_failure_time : Nat
  timeout : Nat
  recovery_time : Nat
  open_success_count : Nat
  open_threshold_count : Nat
deriving DecidableEq, Repr

/-- `CircuitBreaker::new`: initial state `Closed`, `failure_count = 0`,
`last_failure_time = 0`, `open_success_count = 0`. -/
def CircuitBreaker.new (failure_threshold timeout recovery_time
    open_threshold_count : Nat) : CircuitBreaker :=
  { state := State.Closed
    failure_threshold := failure_threshold
    failure_count := 0
    last_failure_time := 0
    timeout := timeout
    recovery_time := recovery_time
    open_success_count := 0
    open_threshold_count := open_threshold_count }

/-- What the breaker observes from `rx.recv_timeout(Duration::from_millis(timeout))`
applied to the worker running the operation: `Ok(Ok(data))`, `Ok(Err(e))`, or
the deadline elapsing with no result. -/
inductive Outcome (R E : Type) where
  | success : R → Outcome R E
  | failure : E → Outcome R E
  | timeout : Outcome R E
deriving DecidableEq, Repr

def Outcome.isSuccess {R E : Type} : Outcome R E → Bool
  | Outcome.success _ => true
  | _ => false

/-- `CircuitBreaker::handle_open_state`.  Note the literal comparison in the
source: `if self.last_failure_time >= self.recovery_time` — the absolute
timestamp is compared directly against the recovery duration; the current
time is not consulted at all. -/
def handle_open_state {E : Type} (cb : CircuitBreaker) :
    Except (MyError E) Unit × CircuitBreaker :=
  if cb.last_failure_time ≥ cb.recovery_time then
    (Except.ok (),
      { cb with state := State.HalfOpen, open_success_count := 0,
                failure_count := 0 })
  else
    (Except.error MyError.TimeoutError, cb)

/-- `CircuitBreaker::handle_half_open_state`, given the observed outcome of
the timed wait and the wall-clock reading `now` used for
`SystemTime::now()` in the failure/timeout branches. -/
def handle_half_open_state {R E : Type} (cb : CircuitBreaker) (now : Nat)
    (o : Outcome R E) : Except (MyError E) R × CircuitBreaker :=
  match o with
  | Outcome.success data =>
      let cb1 := { cb with
        open_success_count := (cb.open_success_count + 1) % U64LIMIT }
      if cb1.open_success_count ≥ cb1.open_threshold_count then
        (Except.ok data,
          { cb1 with state := State.Closed, open_success_count := 0,
                     failure_count := 0 })
      else
        (Except.ok data, cb1)
  | Outcome.failure e =>
      (Except.error (MyError.FunctionError e),
        { cb with last_failure_time := now % U64LIMIT,
                  failure_count := 1, state := State.Open })
  | Outcome.timeout =>
      (Except.error MyError.TimeoutError,
        { cb with state := State.Open,
                  last_failure_time := now % U64LIMIT,
                  failure_count := 1 })

/-- `CircuitBreaker::handle_closed_state`, given the observed outcome of the
timed wait and the wall-clock reading `now`. -/
def handle_closed_state {R E : Type} (cb : CircuitBreaker) (now : Nat)
    (o : Outcome R E) : Except (MyError E) R × CircuitBreaker :=
  match o with
  | Outcome.success data =>
      (Except.ok data,
        { cb with failure_count := 0, state := State.Closed })
  | Outcome.failure e =>
      let cb1 := { cb with
        last_failure_time := now % U64LIMIT,
        failure_count := (cb.failure_count + 1) % U32LIMIT }
      if cb1.failure_count > cb1.failure_threshold then
        (Except.error (MyError.FunctionError e),
          { cb1 with state := State.Open })
      else
        (Except.error (MyError.FunctionError e), cb1)
  | Outcome.timeout =>
      (Except.error MyError.TimeoutError,
        { cb with state := State.Open,
                  last_failure_time := now % U64LIMIT,
                  failure_count := 1 })

/-- Result of one `call` invocation: the returned
`Result<Option<R>, MyError<E>>`, the updated breaker, and whether the
supplied operation was handed to a worker at all (it is spawned in the
`Closed` and `HalfOpen` branches, never in the `Open` branch). -/
structure CallResult (R E : Type) where
  result : Except (MyError E) (Option R)
  breaker : CircuitBreaker
  executed : Bool
deriving Repr

/-- `CircuitBreaker::call`.  The operation itself is abstracted by the
outcome `o` the timed wait would observe, together with the wall-clock
reading `now`; in the `Open` branch neither is consulted because the
operation is never spawned. -/
def call {R E : Type} (cb : CircuitBreaker) (now : Nat) (o : Outcome R E) :
    CallResult R E :=
  match cb.state with
  | State.Open =>
      match handle_open_state (E := E) cb with
      | (Except.ok _, cb1) =>
          { result := Except.ok none, breaker := cb1, executed := false }
      | (Except.error e, cb1) =>
          { result := Except.error e, breaker := cb1, executed := false }
  | State.Closed =>
      match handle_closed_state cb now o with
      | (Except.ok v, cb1) =>
          { result := Except.ok (some v), breaker := cb1, executed := true }
      | (Except.error e, cb1) =>
          { result := Except.error e, breaker := cb1, executed := true }
  | State.HalfOpen =>
      match handle_half_open_state cb now o with
      | (Except.ok v, cb1) =>
          { result := Except.ok (some v), breaker := cb1, executed := true }
      | (Except.error e, cb1) =>
          { result := Except.error e, breaker := cb1, executed := true }

/-- Run a sequence of `call` invocations, each event carrying the wall-clock
reading and the outcome the operation would produce for that call. -/
def runCalls {R E : Type} (cb : CircuitBreaker)
    (events : List (Nat × Outcome R E)) : CircuitBreaker :=
  events.foldl (fun c ev => (call c ev.1 ev.2).breaker) cb

/-- `k` consecutive calls whose operation fails with `e`, all observed at
wall-clock reading `now`. -/
def runFailures {E : Type} (cb : CircuitBreaker) (now : Nat) (e : E) :
    Nat → CircuitBreaker
  | 0 => cb
  | Nat.succ k =>
      (call (runFailures cb now e k) now (Outcome.failure (R := Unit) e)).breaker

/-- `k` consecutive calls whose operation succeeds with `r`, all observed at
wall-clock reading `now`. -/
def runSuccesses {R : Type} (cb : CircuitBreaker) (now : Nat) (r : R) :
    Nat → CircuitBreaker
  | 0 => cb
  | Nat.succ k =>
      (call (runSuccesses cb now r k) now (Outcome.success (E := Unit) r)).breaker

/-- The invariant that `failure_count` is zero whenever the breaker sits in
`HalfOpen`: established on entry to `HalfOpen` and maintained because the
non-closing success branch of `handle_half_open_state` does not touch
`failure_count`. -/
def HalfOpenInv (cb : CircuitBreaker) : Prop :=
  cb.state = State.HalfOpen → cb.failure_count = 0

theorem call_preserves_HalfOpenInv {R E : Type} (cb : CircuitBreaker)
    (now : Nat) (o : Outcome R E) (h : HalfOpenInv cb) :
    HalfOpenInv (call cb now o).breaker := by
  unfold HalfOpenInv at h ⊢
  rcases cb with ⟨st, ft, fc, lft, t, rt, osc, otc⟩
  cases st
  case Open =>
    by_cases hr : rt ≤ lft <;> cases o <;>
      simp [call, handle_open_state, hr]
  case Closed =>
    cases o
    case success r => simp [call, handle_closed_state]
    case failure e =>
      by_cases hf : ft < (fc + 1) % U32LIMIT <;>
        simp [call, handle_closed_state, hf]
    case timeout => simp [call, handle_closed_state]
  case HalfOpen =>
    cases o
    case success r =>
      by_cases hc : otc ≤ (osc + 1) % U64LIMIT
      · simp [call, handle_half_open_state, hc]
      · simp [call, handle_half_open_state, hc, h]
    case failure e => simp [call, handle_half_open_state]
    case timeout => simp [call, handle_half_open_state]

theorem runCalls_preserves_HalfOpenInv {R E : Type} (cb : CircuitBreaker)
    (events : List (Nat × Outcome R E)) (h : HalfOpenInv cb) :
    HalfOpenInv (runCalls cb events) := by
  induction events generalizing cb with
  | nil => exact h
  | cons ev rest ih =>
      exact ih _ (call_preserves_HalfOpenInv cb ev.1 ev.2 h)

/-- C3: in `Closed` or `HalfOpen`, a timeout sets `failure_count` to exactly
1 (regardless of its prior value), records `now` into `last_failure_time`,
transitions to `Open`, and returns `TimeoutError`. -/
theorem C3_timeout_trips {R E : Type} (cb : CircuitBreaker) (now : Nat)
    (hst : cb.state = State.Closed ∨ cb.state = State.HalfOpen)
    (hnow : now < U64LIMIT) :
    (call (R := R) (E := E) cb now Outcome.timeout).result
        = Except.error MyError.TimeoutError ∧
    (call (R := R) (E := E) cb now Outcome.timeout).breaker.failure_count = 1 ∧
    (call (R := R) (E := E) cb now Outcome.timeout).breaker.last_failure_time
        = now ∧
    (call (R := R) (E := E) cb now Outcome.timeout).breaker.state
        = State.Open := by
  rcases hst with h | h <;>
    simp [call, handle_closed_state, handle_half_open_state, h,
      Nat.mod_eq_of_lt hnow]

theorem C3_timeout_trips_witness :
    (call (R := Nat) (E := Nat) (CircuitBreaker.new 3 1000 5000 2) 42
        Outcome.timeout).result = Except.error MyError.TimeoutError ∧
    (call (R := Nat) (E := Nat) (CircuitBreaker.new 3 1000 5000 2) 42
        Outcome.timeout).breaker.failure_count = 1 ∧
    (call (R := Nat) (E := Nat) (CircuitBreaker.new 3 1000 5000 2) 42
        Outcome.timeout).breaker.last_failure_time = 42 ∧
    (call (R := Nat) (E := Nat) (CircuitBreaker.new 3 1000 5000 2) 42
        Outcome.timeout).breaker.state = State.Open :=
  C3_timeout_trips (CircuitBreaker.new 3 1000 5000 2) 42 (Or.inl rfl)
    (by decide)

/-- C5: in `HalfOpen`, any single operation failure or timeout transitions to
`Open` on that same call, setting `last_failure_time` to `now` and
`failure_count` to 1, with no condition on `open_success_count`. -/
theorem C5_half_open_probe_trips {R E : Type} (cb : CircuitBreaker)
    (now : Nat) (e : E) (hst : cb.state = State.HalfOpen)
    (hnow : now < U64LIMIT) :
    ((call (R := R) cb now (Outcome.failure e)).result
        = Except.error (MyError.FunctionError e) ∧
     (call (R := R) cb now (Outcome.failure e)).breaker.state = State.Open ∧
     (call (R := R) cb now (Outcome.failure e)).breaker.last_failure_time
        = now ∧
     (call (R := R) cb now (Outcome.failure e)).breaker.failure_count = 1) ∧
    ((call (R := R) (E := E) cb now Outcome.timeout).result
        = Except.error MyError.TimeoutError ∧
     (call (R := R) (E := E) cb now Outcome.timeout).breaker.state
        = State.Open ∧
     (call (R := R) (E := E) cb now Outcome.timeout).breaker.last_failure_time
        = now ∧
     (call (R := R) (E := E) cb now Outcome.timeout).breaker.failure_count
        = 1) := by
  simp [call, handle_half_open_state, hst, Nat.mod_eq_of_lt hnow]

theorem C5_half_open_probe_trips_witness :
    ((call (R := Nat)
        { state := State.HalfOpen, failure_threshold := 3, failure_count := 0,
          last_failure_time := 50, timeout := 1000, recovery_time := 5000,
          open_success_count := 1, open_threshold_count := 2 } 60
        (Outcome.failure 9)).result
        = Except.error (MyError.FunctionError 9) ∧
      (call (R := Nat)
        { state := State.HalfOpen, failure_threshold := 3, failure_count := 0,
          last_failure_time := 50, timeout := 1000, recovery_time := 5000,
          open_success_count := 1, open_threshold_count := 2 } 60
        (Outcome.failure 9)).breaker.state = State.Open ∧
      (call (R := Nat)
        { state := State.HalfOpen, failure_threshold := 3, failure_count := 0,
          last_failure_time := 50, timeout := 1000, recovery_time := 5000,
          open_success_count := 1, open_threshold_count := 2 } 60
        (Outcome.failure 9)).breaker.last_failure_time = 60 ∧
      (call (R := Nat)
        { state := State.HalfOpen, failure_threshold := 3, failure_count := 0,
          last_failure_time := 50, timeout := 1000, recovery_time := 5000,
          open_success_count := 1, open_threshold_count := 2 } 60
        (Outcome.failure 9)).breaker.failure_count = 1) ∧
     ((call (R := Nat) (E := Nat)
        { state := State.HalfOpen, failure_threshold := 3, failure_count := 0,
          last_failure_time := 50, timeout := 1000, recovery_time := 5000,
          open_success_count := 1, open_threshold_count := 2 } 60
        Outcome.timeout).result = Except.error MyError.TimeoutError ∧
      (call (R := Nat) (E := Nat)
        { state := State.HalfOpen, failure_threshold := 3, failure_count := 0,
          last_failure_time := 50, timeout := 1000, recovery_time := 5000,
          open_success_count := 1, open_threshold_count := 2 } 60
        Outcome.timeout).breaker.state = State.Open ∧
      (call (R := Nat) (E := Nat)
        { state := State.HalfOpen, failure_threshold := 3, failure_count := 0,
          last_failure_time := 50, timeout := 1000, recovery_time := 5000,
          open_success_count := 1, open_threshold_count := 2 } 60
        Outcome.timeout).breaker.last_failure_time = 60 ∧
      (call (R := Nat) (E := Nat)
        { state := State.HalfOpen, failure_threshold := 3, failure_count := 0,
          last_failure_time := 50, timeout := 1000, recovery_time := 5000,
          open_success_count := 1, open_threshold_count := 2 } 60
        Outcome.timeout).breaker.failure_count = 1) :=
  C5_half_open_probe_trips
    { state := State.HalfOpen, failure_threshold := 3, failure_count := 0,
      last_failure_time := 50, timeout := 1000, recovery_time := 5000,
      open_success_count := 1, open_threshold_count := 2 } 60 9 rfl (by decide)

/-- C6: while the breaker is `Open`, the supplied operation is never handed
to a worker, and `call` returns either the rejection indication `Ok(None)`
or `TimeoutError`; it never returns a success value of the operation. -/
theorem C6_open_never_executes {R E : Type} (cb : CircuitBreaker) (now : Nat)
    (o : Outcome R E) (hst : cb.state = State.Open) :
    (call cb now o).executed = false ∧
    ((call cb now o).result = Except.ok none ∨
     (call cb now o).result = Except.error MyError.TimeoutError) ∧
    ∀ r : R, (call cb now o).result ≠ Except.ok (some r) := by
  by_cases hr : cb.recovery_time ≤ cb.last_failure_time <;>
    simp [call, handle_open_state, hst, hr]

theorem C6_open_never_executes_witness :
    (call (R := Nat) (E := Nat)
      { state := State.Open, failure_threshold := 3, failure_count := 4,
        last_failure_time := 70, timeout := 1000, recovery_time := 5000,
        open_success_count := 0, open_threshold_count := 2 } 80
      (Outcome.success 11)).executed = false ∧
    ((call (R := Nat) (E := Nat)
      { state := State.Open, failure_threshold := 3, failure_count := 4,
        last_failure_time := 70, timeout := 1000, recovery_time := 5000,
        open_success_count := 0, open_threshold_count := 2 } 80
      (Outcome.success 11)).result = Except.ok none ∨
     (call (R := Nat) (E := Nat)
      { state := State.Open, failure_threshold := 3, failure_count := 4,
        last_failure_time := 70, timeout := 1000, recovery_time := 5000,
        open_success_count := 0, open_threshold_count := 2 } 80
      (Outcome.success 11)).result = Except.error MyError.TimeoutError) ∧
    ∀ r : Nat, (call (R := Nat) (E := Nat)
      { state := State.Open, failure_threshold := 3, failure_count := 4,
        last_failure_time := 70, timeout := 1000, recovery_time := 5000,
        open_success_count := 0, open_threshold_count := 2 } 80
      (Outcome.success 11)).result ≠ Except.ok (some r) :=
  C6_open_never_executes
    { state := State.Open, failure_threshold := 3, failure_count := 4,
      last_failure_time := 70, timeout := 1000, recovery_time := 5000,
      open_success_count := 0, open_threshold_count := 2 } 80
    (Outcome.success 11) rfl

/-- C9: `last_failure_time` is left unchanged by every call made in the
`Open` state (including the one that transitions to `HalfOpen`) and by every
call whose operation succeeds. -/
theorem C9_lft_only_on_failure {R E : Type} (cb : CircuitBreaker) (now : Nat)
    (o : Outcome R E)
    (h : cb.state = State.Open ∨ o.isSuccess = true) :
    (call cb now o).breaker.last_failure_time = cb.last_failure_time := by
  rcases cb with ⟨st, ft, fc, lft, t, rt, osc, otc⟩
  rcases h with h | h
  · simp only at h
    subst h
    by_cases hr : rt ≤ lft <;>
      simp [call, handle_open_state, hr]
  · cases o with
    | success r =>
        cases st
        case Open =>
          by_cases hr : rt ≤ lft <;>
            simp [call, handle_open_state, hr]
        case Closed => simp [call, handle_closed_state]
        case HalfOpen =>
          by_cases hc : otc ≤ (osc + 1) % U64LIMIT <;>
            simp [call, handle_half_open_state, hc]
    | failure e => simp [Outcome.isSuccess] at h
    | timeout => simp [Outcome.isSuccess] at h

theorem C9_lft_only_on_failure_witness :
    (call (R := Nat) (E := Nat)
      { state := State.Closed, failure_threshold := 3, failure_count := 2,
        last_failure_time := 90, timeout := 1000, recovery_time := 5000,
        open_success_count := 0, open_threshold_count := 2 } 123
      (Outcome.success 7)).breaker.last_failure_time = 90 :=
  C9_lft_only_on_failure
    { state := State.Closed, failure_threshold := 3, failure_count := 2,
      last_failure_time := 90, timeout := 1000, recovery_time := 5000,
      open_success_count := 0, open_threshold_count := 2 } 123
    (Outcome.success 7) (Or.inr rfl)

/-- C10: every call that moves the breaker into `Open` from a different
state records `now` into `last_failure_time` on that same call, and every
call that finds the breaker `Open` and leaves it `Open` preserves
`last_failure_time`; hence while `Open`, `last_failure_time` holds the
timestamp of the failure or timeout that tripped (or re-tripped) the
breaker. -/
theorem C10_trip_records_time {R E : Type} (cb : CircuitBreaker) (now : Nat)
    (o : Outcome R E) (hnow : now < U64LIMIT) :
    ((call cb now o).breaker.state = State.Open → cb.state ≠ State.Open →
       (call cb now o).breaker.last_failure_time = now) ∧
    (cb.state = State.Open → (call cb now o).breaker.state = State.Open →
       (call cb now o).breaker.last_failure_time = cb.last_failure_time) := by
  rcases cb with ⟨st, ft, fc, lft, t, rt, osc, otc⟩
  cases st
  case Open =>
    by_cases hr : rt ≤ lft <;>
      simp [call, handle_open_state, hr]
  case Closed =>
    cases o with
    | success r => simp [call, handle_closed_state]
    | failure e =>
        by_cases hf : ft < (fc + 1) % U32LIMIT <;>
          simp [call, handle_closed_state, hf, Nat.mod_eq_of_lt hnow]
    | timeout => simp [call, handle_closed_state, Nat.mod_eq_of_lt hnow]
  case HalfOpen =>
    cases o with
    | success r =>
        by_cases hc : otc ≤ (osc + 1) % U64LIMIT <;>
          simp [call, handle_half_open_state, hc]
    | failure e =>
        simp [call, handle_half_open_state, Nat.mod_eq_of_lt hnow]
    | timeout =>
        simp [call, handle_half_open_state, Nat.mod_eq_of_lt hnow]

theorem C10_trip_records_time_witness :
    ((call (R := Nat) (E := Nat)
      { state := State.Closed, failure_threshold := 0, failure_count := 0,
        last_failure_time := 0, timeout := 1000, recovery_time := 5000,
        open_success_count := 0, open_threshold_count := 2 } 333
      (Outcome.failure 4)).breaker.state = State.Open →
     { state := State.Closed, failure_threshold := 0, failure_count := 0,
       last_failure_time := 0, timeout := 1000, recovery_time := 5000,
       open_success_count := 0,
       open_threshold_count := 2 : CircuitBreaker }.state ≠ State.Open →
     (call (R := Nat) (E := Nat)
      { state := State.Closed, failure_threshold := 0, failure_count := 0,
        last_failure_time := 0, timeout := 1000, recovery_time := 5000,
        open_success_count := 0, open_threshold_count := 2 } 333
      (Outcome.failure 4)).breaker.last_failure_time = 333) ∧
    ({ state := State.Closed, failure_threshold := 0, failure_count := 0,
       last_failure_time := 0, timeout := 1000, recovery_time := 5000,
       open_success_count := 0,
       open_threshold_count := 2 : CircuitBreaker }.state = State.Open →
     (call (R := Nat) (E := Nat)
      { state := State.Closed, failure_threshold := 0, failure_count := 0,
        last_failure_time := 0, timeout := 1000, recovery_time := 5000,
        open_success_count := 0, open_threshold_count := 2 } 333
      (Outcome.failure 4)).breaker.state = State.Open →
     (call (R := Nat) (E := Nat)
      { state := State.Closed, failure_threshold := 0, failure_count := 0,
        last_failure_time := 0, timeout := 1000, recovery_time := 5000,
        open_success_count := 0, open_threshold_count := 2 } 333
      (Outcome.failure 4)).breaker.last_failure_time = 0) :=
  C10_trip_records_time
    { state := State.Closed, failure_threshold := 0, failure_count := 0,
      last_failure_time := 0, timeout := 1000, recovery_time := 5000,
      open_success_count := 0, open_threshold_count := 2 } 333
    (Outcome.failure 4) (by decide)

theorem call_closed_failure_no_trip {E : Type} (s : CircuitBreaker)
    (now : Nat) (e : E) (hst : s.state = State.Closed)
    (hle : s.failure_count + 1 ≤ s.failure_threshold)
    (hlt : s.failure_count + 1 < U32LIMIT) :
    (call (R := Unit) s now (Outcome.failure e)).breaker.state
        = State.Closed ∧
    (call (R := Unit) s now (Outcome.failure e)).breaker.failure_count
        = s.failure_count + 1 ∧
    (call (R := Unit) s now (Outcome.failure e)).breaker.failure_threshold
        = s.failure_threshold := by
  have hmod : (s.failure_count + 1) % U32LIMIT = s.failure_count + 1 :=
    Nat.mod_eq_of_lt hlt
  have hnotrip : ¬ s.failure_threshold < (s.failure_count + 1) % U32LIMIT := by
    rw [hmod]; omega
  have hnotrip2 : ¬ s.failure_threshold < s.failure_count + 1 := by omega
  simp [call, handle_closed_state, hst, hnotrip, hnotrip2, hmod]

theorem call_closed_failure_trip {E : Type} (s : CircuitBreaker)
    (now : Nat) (e : E) (hst : s.state = State.Closed)
    (htrip : s.failure_threshold < s.failure_count + 1)
    (hlt : s.failure_count + 1 < U32LIMIT) :
    (call (R := Unit) s now (Outcome.failure e)).breaker.state = State.Open ∧
    (call (R := Unit) s now (Outcome.failure e)).breaker.failure_count
        = s.failure_count + 1 := by
  have hmod : (s.failure_count + 1) % U32LIMIT = s.failure_count + 1 :=
    Nat.mod_eq_of_lt hlt
  have htrip1 : s.failure_threshold < (s.failure_count + 1) % U32LIMIT := by
    rw [hmod]; exact htrip
  simp [call, handle_closed_state, hst, htrip1, htrip, hmod]

theorem runFailures_stays_closed {E : Type} (cb : CircuitBreaker)
    (now : Nat) (e : E) (hst : cb.state = State.Closed)
    (hfc : cb.failure_count = 0)
    (hth : cb.failure_threshold + 1 < U32LIMIT) :
    ∀ k, k ≤ cb.failure_threshold →
      (runFailures cb now e k).state = State.Closed ∧
      (runFailures cb now e k).failure_count = k ∧
      (runFailures cb now e k).failure_threshold
        = cb.failure_threshold := by
  intro k
  induction k with
  | zero => exact fun _ => ⟨hst, hfc, rfl⟩
  | succ k ih =>
      intro hk
      obtain ⟨h1, h2, h3⟩ := ih (Nat.le_of_succ_le hk)
      have step := call_closed_failure_no_trip (runFailures cb now e k) now e
        h1 (by rw [h2, h3]; exact hk) (by rw [h2]; omega)
      rw [h2] at step
      rw [h3] at step
      exact ⟨step.1, step.2.1, step.2.2⟩

/-- C2: in `Closed`, an operation failure before the deadline records `now`
into `last_failure_time`, increments `failure_count`, transitions to `Open`
exactly when the new count exceeds `failure_threshold`, and returns the
wrapped failure; consequently, starting from `failure_count = 0`, the
`failure_threshold + 1`-th consecutive operation failure is the one that
trips the breaker. -/
theorem C2_closed_failure_counts {R E : Type} (cb : CircuitBreaker)
    (now : Nat) (e : E) (hst : cb.state = State.Closed)
    (hnow : now < U64LIMIT) (hfc : cb.failure_count + 1 < U32LIMIT) :
    ((call (R := R) cb now (Outcome.failure e)).result
        = Except.error (MyError.FunctionError e) ∧
     (call (R := R) cb now (Outcome.failure e)).breaker.last_failure_time
        = now ∧
     (call (R := R) cb now (Outcome.failure e)).breaker.failure_count
        = cb.failure_count + 1 ∧
     (cb.failure_count + 1 > cb.failure_threshold →
       (call (R := R) cb now (Outcome.failure e)).breaker.state
          = State.Open) ∧
     (¬ cb.failure_count + 1 > cb.failure_threshold →
       (call (R := R) cb now (Outcome.failure e)).breaker.state
          = State.Closed)) ∧
    (cb.failure_count = 0 → cb.failure_threshold + 1 < U32LIMIT →
      (∀ k, k ≤ cb.failure_threshold →
        (runFailures cb now e k).state = State.Closed) ∧
      (runFailures cb now e (cb.failure_threshold + 1)).state
        = State.Open ∧
      (runFailures cb now e (cb.failure_threshold + 1)).failure_count
        = cb.failure_threshold + 1) := by
  constructor
  · have hmod : (cb.failure_count + 1) % U32LIMIT = cb.failure_count + 1 :=
      Nat.mod_eq_of_lt hfc
    by_cases htrip : cb.failure_threshold < cb.failure_count + 1
    · have htrip1 : cb.failure_threshold < (cb.failure_count + 1) % U32LIMIT := by
        rw [hmod]; exact htrip
      simp [call, handle_closed_state, hst, htrip1, hmod,
        Nat.mod_eq_of_lt hnow, htrip]
    · have hnotrip : ¬ cb.failure_threshold < (cb.failure_count + 1) % U32LIMIT := by
        rw [hmod]; exact htrip
      simp [call, handle_closed_state, hst, hnotrip, hmod,
        Nat.mod_eq_of_lt hnow, htrip]
  · intro hfc0 hth
    obtain ⟨h1, h2, h3⟩ :=
      runFailures_stays_closed cb now e hst hfc0 hth
        cb.failure_threshold (Nat.le_refl _)
    have step := call_closed_failure_trip (runFailures cb now e
        cb.failure_threshold) now e h1 (by rw [h2, h3]; omega)
      (by rw [h2]; omega)
    rw [h2] at step
    exact ⟨fun k hk => (runFailures_stays_closed cb now e hst hfc0 hth k hk).1,
      step.1, step.2⟩

theorem C2_closed_failure_counts_witness :
    (call (R := Nat) (E := Nat) (CircuitBreaker.new 2 100 5000 2) 10
        (Outcome.failure 7)).result
      = Except.error (MyError.FunctionError 7) ∧
    (call (R := Nat) (E := Nat) (CircuitBreaker.new 2 100 5000 2) 10
        (Outcome.failure 7)).breaker.last_failure_time = 10 ∧
    (call (R := Nat) (E := Nat) (CircuitBreaker.new 2 100 5000 2) 10
        (Outcome.failure 7)).breaker.failure_count = 1 ∧
    (runFailures (CircuitBreaker.new 2 100 5000 2) 10 (7 : Nat) 2).state
      = State.Closed ∧
    (runFailures (CircuitBreaker.new 2 100 5000 2) 10 (7 : Nat) 3).state
      = State.Open ∧
    (runFailures (CircuitBreaker.new 2 100 5000 2) 10 (7 : Nat) 3).failure_count
      = 3 :=
  have h := C2_closed_failure_counts (R := Nat)
    (CircuitBreaker.new 2 100 5000 2) 10 7 rfl (by decide) (by decide)
  have hseq := h.2 rfl (by decide)
  ⟨h.1.1, h.1.2.1, h.1.2.2.1, (hseq.1 2 (by decide)), hseq.2.1, hseq.2.2⟩

theorem call_half_open_success_stay {R E : Type} (s : CircuitBreaker)
    (now : Nat) (r : R) (hst : s.state = State.HalfOpen)
    (hlt : s.open_success_count + 1 < s.open_threshold_count)
    (hmod : s.open_success_count + 1 < U64LIMIT) :
    (call (E := E) s now (Outcome.success r)).breaker.state
        = State.HalfOpen ∧
    (call (E := E) s now (Outcome.success r)).breaker.open_success_count
        = s.open_success_count + 1 ∧
    (call (E := E) s now (Outcome.success r)).breaker.open_threshold_count
        = s.open_threshold_count ∧
    (call (E := E) s now (Outcome.success r)).breaker.failure_count
        = s.failure_count := by
  have hm : (s.open_success_count + 1) % U64LIMIT = s.open_success_count + 1 :=
    Nat.mod_eq_of_lt hmod
  have hc : ¬ s.open_threshold_count ≤ (s.open_success_count + 1) % U64LIMIT := by
    rw [hm]; omega
  have hc2 : ¬ s.open_threshold_count ≤ s.open_success_count + 1 := by omega
  simp [call, handle_half_open_state, hst, hc, hc2, hm]

theorem call_half_open_success_close {R E : Type} (s : CircuitBreaker)
    (now : Nat) (r : R) (hst : s.state = State.HalfOpen)
    (hge : s.open_threshold_count ≤ s.open_success_count + 1)
    (hmod : s.open_success_count + 1 < U64LIMIT) :
    (call (E := E) s now (Outcome.success r)).breaker.state = State.Closed ∧
    (call (E := E) s now (Outcome.success r)).breaker.open_success_count
        = 0 ∧
    (call (E := E) s now (Outcome.success r)).breaker.failure_count = 0 := by
  have hm : (s.open_success_count + 1) % U64LIMIT = s.open_success_count + 1 :=
    Nat.mod_eq_of_lt hmod
  have hc : s.open_threshold_count ≤ (s.open_success_count + 1) % U64LIMIT := by
    rw [hm]; exact hge
  simp [call, handle_half_open_state, hst, hc, hge, hm]

theorem runSuccesses_half_open {R : Type} (cb : CircuitBreaker) (now : Nat)
    (r : R) (hst : cb.state = State.HalfOpen)
    (hosc : cb.open_success_count = 0)
    (hotc : cb.open_threshold_count < U64LIMIT) :
    ∀ k, k < cb.open_threshold_count →
      (runSuccesses cb now r k).state = State.HalfOpen ∧
      (runSuccesses cb now r k).open_success_count = k ∧
      (runSuccesses cb now r k).open_threshold_count
        = cb.open_threshold_count := by
  intro k
  induction k with
  | zero => exact fun _ => ⟨hst, hosc, rfl⟩
  | succ k ih =>
      intro hk
      obtain ⟨h1, h2, h3⟩ := ih (Nat.lt_of_succ_lt hk)
      have step := call_half_open_success_stay (E := Unit)
        (runSuccesses cb now r k) now r h1
        (by rw [h2, h3]; exact hk) (by rw [h2]; omega)
      rw [h2] at step
      rw [h3] at step
      exact ⟨step.1, step.2.1, step.2.2.1⟩

/-- C4 (amended): in `HalfOpen`, a success before the deadline increments
`open_success_count`; when the new count reaches or exceeds
`open_threshold_count` the breaker transitions to `Closed` with both
`open_success_count` and `failure_count` reset to 0, otherwise it remains
`HalfOpen` with `failure_count` untouched; in both cases the success value
is returned.  Consequently, when `open_threshold_count ≥ 1`, a breaker that
has just entered `HalfOpen` (zero successes so far) closes, with both
counters 0, on exactly the `open_threshold_count`-th consecutive successful
probe and not before. -/
theorem C4_half_open_success_closes {R E : Type} (cb : CircuitBreaker)
    (now : Nat) (r : R) (hst : cb.state = State.HalfOpen)
    (hosc : cb.open_success_count + 1 < U64LIMIT) :
    ((call (E := E) cb now (Outcome.success r)).result
        = Except.ok (some r) ∧
     (cb.open_threshold_count ≤ cb.open_success_count + 1 →
       (call (E := E) cb now (Outcome.success r)).breaker.state
          = State.Closed ∧
       (call (E := E) cb now (Outcome.success r)).breaker.open_success_count
          = 0 ∧
       (call (E := E) cb now (Outcome.success r)).breaker.failure_count
          = 0) ∧
     (¬ cb.open_threshold_count ≤ cb.open_success_count + 1 →
       (call (E := E) cb now (Outcome.success r)).breaker.state
          = State.HalfOpen ∧
       (call (E := E) cb now (Outcome.success r)).breaker.open_success_count
          = cb.open_success_count + 1 ∧
       (call (E := E) cb now (Outcome.success r)).breaker.failure_count
          = cb.failure_count)) ∧
    (cb.open_success_count = 0 → 1 ≤ cb.open_threshold_count →
       cb.open_threshold_count < U64LIMIT →
      (∀ k, k < cb.open_threshold_count →
        (runSuccesses cb now r k).state = State.HalfOpen) ∧
      (runSuccesses cb now r cb.open_threshold_count).state
        = State.Closed ∧
      (runSuccesses cb now r cb.open_threshold_count).open_success_count
        = 0 ∧
      (runSuccesses cb now r cb.open_threshold_count).failure_count
        = 0) := by
  constructor
  · have hm : (cb.open_success_count + 1) % U64LIMIT
        = cb.open_success_count + 1 := Nat.mod_eq_of_lt hosc
    refine ⟨?_, ?_, ?_⟩
    · by_cases hc : cb.open_threshold_count ≤ cb.open_success_count + 1 <;>
      · have hc1 : (cb.open_threshold_count
              ≤ (cb.open_success_count + 1) % U64LIMIT)
            = (cb.open_threshold_count ≤ cb.open_success_count + 1) := by
          rw [hm]
        simp [call, handle_half_open_state, hst, hc1, hc]
    · intro hc
      exact call_half_open_success_close cb now r hst hc hosc
    · intro hc
      have hstay :=
        call_half_open_success_stay (E := E) cb now r hst (by omega) hosc
      exact ⟨hstay.1, hstay.2.1, hstay.2.2.2⟩
  · intro hosc0 hpos hotc
    obtain ⟨m, hm⟩ : ∃ m, cb.open_threshold_count = m + 1 :=
      ⟨cb.open_threshold_count - 1, by omega⟩
    obtain ⟨h1, h2, h3⟩ :=
      runSuccesses_half_open cb now r hst hosc0 hotc m (by omega)
    have step := call_half_open_success_close (E := Unit)
      (runSuccesses cb now r m) now r h1 (by rw [h2, h3, hm]) (by rw [h2]; omega)
    refine ⟨fun k hk =>
      (runSuccesses_half_open cb now r hst hosc0 hotc k hk).1, ?_, ?_, ?_⟩ <;>
    · rw [hm]
      first
      | exact step.1
      | exact step.2.1
      | exact step.2.2

theorem C4_half_open_success_closes_witness :
    (call (R := Nat) (E := Nat)
      { state := State.HalfOpen, failure_threshold := 3, failure_count := 0,
        last_failure_time := 40, timeout := 1000, recovery_time := 5000,
        open_success_count := 0, open_threshold_count := 2 } 41
      (Outcome.success 8)).result = Except.ok (some 8) ∧
    (call (R := Nat) (E := Nat)
      { state := State.HalfOpen, failure_threshold := 3, failure_count := 0,
        last_failure_time := 40, timeout := 1000, recovery_time := 5000,
        open_success_count := 0, open_threshold_count := 2 } 41
      (Outcome.success 8)).breaker.state = State.HalfOpen ∧
    (call (R := Nat) (E := Nat)
      { state := State.HalfOpen, failure_threshold := 3, failure_count := 0,
        last_failure_time := 40, timeout := 1000, recovery_time := 5000,
        open_success_count := 0, open_threshold_count := 2 } 41
      (Outcome.success 8)).breaker.open_success_count = 1 ∧
    (runSuccesses
      { state := State.HalfOpen, failure_threshold := 3, failure_count := 0,
        last_failure_time := 40, timeout := 1000, recovery_time := 5000,
        open_success_count := 0, open_threshold_count := 2 } 41 (8 : Nat)
      2).state = State.Closed ∧
    (runSuccesses
      { state := State.HalfOpen, failure_threshold := 3, failure_count := 0,
        last_failure_time := 40, timeout := 1000, recovery_time := 5000,
        open_success_count := 0, open_threshold_count := 2 } 41 (8 : Nat)
      2).open_success_count = 0 ∧
    (runSuccesses
      { state := State.HalfOpen, failure_threshold := 3, failure_count := 0,
        last_failure_time := 40, timeout := 1000, recovery_time := 5000,
        open_success_count := 0, open_threshold_count := 2 } 41 (8 : Nat)
      2).failure_count = 0 :=
  have h := C4_half_open_success_closes (E := Nat)
    { state := State.HalfOpen, failure_threshold := 3, failure_count := 0,
      last_failure_time := 40, timeout := 1000, recovery_time := 5000,
      open_success_count := 0, open_threshold_count := 2 } 41 8 rfl (by decide)
  have hseq := h.2 rfl (by decide) (by decide)
  have hstay := h.1.2.2 (by decide)
  ⟨h.1.1, hstay.1, hstay.2.1, hseq.2.1, hseq.2.2.1, hseq.2.2.2⟩

/-- C4 counterexample: with `open_threshold_count = 0` the claim fails.  A
fresh breaker with thresholds `(0, 1000, 0, 0)` trips on one failing call
and enters `HalfOpen` on the next call; at that point zero consecutive
successful probes have been performed, yet the state is `HalfOpen`, not
`Closed` as the claim ("Closed after exactly `open_threshold_count`
consecutive successful probes") would require. -/
theorem C4_counterexample :
    (runCalls (R := Nat) (E := Nat) (CircuitBreaker.new 0 1000 0 0)
        [(10, Outcome.failure 7), (11, Outcome.timeout)]).open_threshold_count
      = 0 ∧
    (runCalls (R := Nat) (E := Nat) (CircuitBreaker.new 0 1000 0 0)
        [(10, Outcome.failure 7), (11, Outcome.timeout)]).open_success_count
      = 0 ∧
    (runSuccesses (runCalls (R := Nat) (E := Nat)
        (CircuitBreaker.new 0 1000 0 0)
        [(10, Outcome.failure 7), (11, Outcome.timeout)]) 12 (5 : Nat)
      0).state = State.HalfOpen ∧
    (runSuccesses (runCalls (R := Nat) (E := Nat)
        (CircuitBreaker.new 0 1000 0 0)
        [(10, Outcome.failure 7), (11, Outcome.timeout)]) 12 (5 : Nat)
      0).state ≠ State.Closed := by
  decide

/-- C7: along any sequence of calls from a freshly constructed breaker,
`failure_count` is 0 immediately after a call whose operation succeeds in
`Closed` or `HalfOpen`, and immediately after any call that leaves the
breaker in `HalfOpen` (in particular after the `Open → HalfOpen` rejected
call, and after a non-closing `HalfOpen` success because `failure_count`
is 0 throughout a `HalfOpen` episode). -/
theorem C7_fc_zero_after_success {R E : Type} (ft t rt otc : Nat)
    (events : List (Nat × Outcome R E)) (now : Nat) (o : Outcome R E) :
    (((runCalls (CircuitBreaker.new ft t rt otc) events).state
        = State.Closed ∨
      (runCalls (CircuitBreaker.new ft t rt otc) events).state
        = State.HalfOpen) →
     o.isSuccess = true →
     (call (runCalls (CircuitBreaker.new ft t rt otc) events) now
        o).breaker.failure_count = 0) ∧
    ((call (runCalls (CircuitBreaker.new ft t rt otc) events) now
        o).breaker.state = State.HalfOpen →
     (call (runCalls (CircuitBreaker.new ft t rt otc) events) now
        o).breaker.failure_count = 0) := by
  have hinv : HalfOpenInv (runCalls (CircuitBreaker.new ft t rt otc) events) :=
    runCalls_preserves_HalfOpenInv _ _ (fun _ => rfl)
  constructor
  · intro hs hsucc
    cases o with
    | success r =>
        rcases hs with hcl | hho
        · simp [call, handle_closed_state, hcl]
        · have hfc0 := hinv hho
          by_cases hc :
              (runCalls (CircuitBreaker.new ft t rt otc)
                  events).open_threshold_count ≤
                ((runCalls (CircuitBreaker.new ft t rt otc)
                    events).open_success_count + 1) % U64LIMIT
          · simp [call, handle_half_open_state, hho, hc]
          · simp [call, handle_half_open_state, hho, hc, hfc0]
    | failure e => simp [Outcome.isSuccess] at hsucc
    | timeout => simp [Outcome.isSuccess] at hsucc
  · exact call_preserves_HalfOpenInv _ now o hinv

theorem C7_fc_zero_after_success_witness :
    (call (E := Nat) (runCalls (R := Nat) (E := Nat)
        (CircuitBreaker.new 3 1000 5000 2)
        [(1, Outcome.failure 9)]) 2 (Outcome.success 4)).breaker.failure_count
      = 0 :=
  (C7_fc_zero_after_success 3 1000 5000 2 [(1, Outcome.failure 9)] 2
      (Outcome.success 4)).1 (Or.inl (by decide)) rfl

/-- C8 counterexample: a fresh breaker with thresholds `(0, 1000, 0, 3)`
trips on one failing call, enters `HalfOpen` on the next call, records one
successful probe (`open_success_count = 1`), and then a failing probe
transitions `HalfOpen → Open` — after which `open_success_count` is still
1, not 0 as the claim requires for every transition out of `HalfOpen`. -/
theorem C8_counterexample :
    (runCalls (R := Nat) (E := Nat) (CircuitBreaker.new 0 1000 0 3)
        [(10, Outcome.failure 7), (11, Outcome.timeout),
         (12, Outcome.success 5)]).state = State.HalfOpen ∧
    (runCalls (R := Nat) (E := Nat) (CircuitBreaker.new 0 1000 0 3)
        [(10, Outcome.failure 7), (11, Outcome.timeout),
         (12, Outcome.success 5)]).open_success_count = 1 ∧
    (runCalls (R := Nat) (E := Nat) (CircuitBreaker.new 0 1000 0 3)
        [(10, Outcome.failure 7), (11, Outcome.timeout),
         (12, Outcome.success 5), (20, Outcome.failure 7)]).state
      = State.Open ∧
    (runCalls (R := Nat) (E := Nat) (CircuitBreaker.new 0 1000 0 3)
        [(10, Outcome.failure 7), (11, Outcome.timeout),
         (12, Outcome.success 5), (20, Outcome.failure 7)]).open_success_count
      = 1 := by
  decide

/-- C8 (amended): `open_success_count` is reset to 0 on every transition
into `HalfOpen` (the `Open` call that becomes eligible) and on the
`HalfOpen → Closed` transition; the `HalfOpen → Open` transition caused by
a probe failure or timeout leaves `open_success_count` unchanged (possibly
nonzero), and the stale value is re-reset on the next entry to
`HalfOpen`. -/
theorem C8_osc_reset_points {R E : Type} (cb : CircuitBreaker) (now : Nat)
    (o : Outcome R E) (r : R) (e : E) :
    (cb.state = State.Open → cb.recovery_time ≤ cb.last_failure_time →
      (call cb now o).breaker.state = State.HalfOpen ∧
      (call cb now o).breaker.open_success_count = 0) ∧
    (cb.state = State.HalfOpen →
      (call (E := E) cb now (Outcome.success r)).breaker.state
        = State.Closed →
      (call (E := E) cb now (Outcome.success r)).breaker.open_success_count
        = 0) ∧
    (cb.state = State.HalfOpen →
      (call (R := R) cb now (Outcome.failure e)).breaker.state
        = State.Open ∧
      (call (R := R) cb now (Outcome.failure e)).breaker.open_success_count
        = cb.open_success_count ∧
      (call (R := R) (E := E) cb now Outcome.timeout).breaker.state
        = State.Open ∧
      (call (R := R) (E := E) cb now
        Outcome.timeout).breaker.open_success_count
        = cb.open_success_count) := by
  refine ⟨?_, ?_, ?_⟩
  · intro hst hr
    simp [call, handle_open_state, hst, hr]
  · intro hst
    by_cases hc : cb.open_threshold_count
        ≤ (cb.open_success_count + 1) % U64LIMIT <;>
      simp [call, handle_half_open_state, hst, hc]
  · intro hst
    simp [call, handle_half_open_state, hst]

theorem C8_osc_reset_points_witness :
    (call (R := Nat) (E := Nat)
      { state := State.Open, failure_threshold := 3, failure_count := 1,
        last_failure_time := 6000, timeout := 1000, recovery_time := 5000,
        open_success_count := 4, open_threshold_count := 2 } 6100
      (Outcome.timeout)).breaker.state = State.HalfOpen ∧
    (call (R := Nat) (E := Nat)
      { state := State.Open, failure_threshold := 3, failure_count := 1,
        last_failure_time := 6000, timeout := 1000, recovery_time := 5000,
        open_success_count := 4, open_threshold_count := 2 } 6100
      (Outcome.timeout)).breaker.open_success_count = 0 :=
  (C8_osc_reset_points (R := Nat) (E := Nat)
    { state := State.Open, failure_threshold := 3, failure_count := 1,
      last_failure_time := 6000, timeout := 1000, recovery_time := 5000,
      open_success_count := 4, open_threshold_count := 2 } 6100
    Outcome.timeout 0 0).1 rfl (by decide)

/-- C1: evaluation of `call` in the `Open` state at the failing inputs.
The first breaker last failed at time 100 and ample wall-clock time has
elapsed (`now = 10000`, `recovery_time = 5000`, so
`now - last_failure_time ≥ recovery_time`), yet the code returns
`TimeoutError` and leaves the breaker entirely unchanged, because
`handle_open_state` compares `last_failure_time` itself — not the elapsed
time — against `recovery_time` (`100 ≥ 5000` is false).  Conversely, the
second breaker last failed at time 6000 and only 1 ms has elapsed
(`now = 6001`, so `now - last_failure_time < recovery_time`), yet the code
transitions to `HalfOpen` and returns the rejection indication, because
`6000 ≥ 5000` is true. -/
theorem C1_open_exit_condition_code_eval :
    ((10000 : Nat) - 100 ≥ 5000 ∧
     (call (R := Nat) (E := Nat)
       { state := State.Open, failure_threshold := 3, failure_count := 2,
         last_failure_time := 100, timeout := 1000, recovery_time := 5000,
         open_success_count := 0, open_threshold_count := 2 } 10000
       Outcome.timeout).result = Except.error MyError.TimeoutError ∧
     (call (R := Nat) (E := Nat)
       { state := State.Open, failure_threshold := 3, failure_count := 2,
         last_failure_time := 100, timeout := 1000, recovery_time := 5000,
         open_success_count := 0, open_threshold_count := 2 } 10000
       Outcome.timeout).breaker =
       { state := State.Open, failure_threshold := 3, failure_count := 2,
         last_failure_time := 100, timeout := 1000, recovery_time := 5000,
         open_success_count := 0, open_threshold_count := 2 }) ∧
    ((6001 : Nat) - 6000 < 5000 ∧
     (call (R := Nat) (E := Nat)
       { state := State.Open, failure_threshold := 3, failure_count := 2,
         last_failure_time := 6000, timeout := 1000, recovery_time := 5000,
         open_success_count := 0, open_threshold_count := 2 } 6001
       Outcome.timeout).result = Except.ok none ∧
     (call (R := Nat) (E := Nat)
       { state := State.Open, failure_threshold := 3, failure_count := 2,
         last_failure_time := 6000, timeout := 1000, recovery_time := 5000,
         open_success_count := 0, open_threshold_count := 2 } 6001
       Outcome.timeout).breaker.state = State.HalfOpen ∧
     (call (R := Nat) (E := Nat)
       { state := State.Open, failure_threshold := 3, failure_count := 2,
         last_failure_time := 6000, timeout := 1000, recovery_time := 5000,
         open_success_count := 0, open_threshold_count := 2 } 6001
       Outcome.timeout).breaker.open_success_count = 0 ∧
     (call (R := Nat) (E := Nat)
       { state := State.Open, failure_threshold := 3, failure_count := 2,
         last_failure_time := 6000, timeout := 1000, recovery_time := 5000,
         open_success_count := 0, open_threshold_count := 2 } 6001
       Outcome.timeout).breaker.failure_count = 0) :=
  ⟨⟨by decide, rfl, by decide⟩, ⟨by decide, rfl, by decide, by decide, by decide⟩⟩
